import Mathlib

/-!
Verification development for the command-dispatch core of an in-memory
key-value server (`src/server/main_service.cc`).

The definitions below are a shallow embedding of that file: the per-connection
state, the command registry fragment registered by `Service::RegisterCommands`,
the validation pipeline of `Service::DispatchCommand` (including the deferred
`multi_error` cleanup hook), the `Multi`/`Exec` handlers, the script path
(`EvalSha` / `EvalInternal`), the Memcached adapter `DispatchMC`, and the
`InterpreterReplier` array-tracking logic.  Side effects on the reply builder,
the transaction and the interpreter are recorded as an explicit event trace.
Metrics, logging and debug-only fields (latency histograms, `last_command_debug`,
`cntx->cid`) are omitted: no observable behaviour specified here depends on them.
-/

namespace Dfly

/-- A single-quote character, used when assembling error strings. -/
def squote : String := String.mk [Char.ofNat 39]

/-- ASCII uppercasing, as `ToUpper(&args[0])` does on the command token. -/
def toUpperStr (s : String) : String := String.mk (s.data.map Char.toUpper)

/-- ASCII lowercasing, as `ToLower(&args[1])` does on an EVALSHA hash. -/
def toLowerStr (s : String) : String := String.mk (s.data.map Char.toLower)

/-- `GlobalState`: process-wide flag (server_state.h). -/
inductive GlobalState where
  | ACTIVE
  | LOADING
  | SHUTTING_DOWN
  deriving DecidableEq, Repr

/-- `GlobalState::Name`. -/
def GlobalState.name : GlobalState → String
  | .ACTIVE => "ACTIVE"
  | .LOADING => "LOADING"
  | .SHUTTING_DOWN => "SHUTTING_DOWN"

/-- `ConnectionState::ExecState`. -/
inductive ExecState where
  | EXEC_INACTIVE
  | EXEC_COLLECT
  | EXEC_ERROR
  deriving DecidableEq, Repr

/-- Bit set `CO::*` of command options, one Bool per bit. -/
structure OptMask where
  readonly : Bool := false
  write : Bool := false
  fast : Bool := false
  loading : Bool := false
  noscript : Bool := false
  global_trans : Bool := false
  admin : Bool := false
  deriving DecidableEq, Repr

/-- Events observed on the reply builder, the transaction and the interpreter. -/
inductive Event where
  | SendError (s : String)
  | SendSimpleString (s : String)
  | SendOk
  | SendNull
  | SendClientError (s : String)
  | SendVersionDirect
  | StatsMC (key : String)
  | StartArrayEv (n : Nat)
  | Invoke (name : String) (argv : List String)
  | TxSchedule
  | TxUnlockMulti
  | TxSetExecCmd (name : String)
  | TxInitByArgs (db : Nat) (argv : List String)
  | RunFunction (sha : String)
  | AddFunction (body : String)
  | SetGlobalArray (name : String) (vals : List String)
  | SerializeResult
  | ResetStack
  | McDispatch (argv : List String)
  deriving DecidableEq, Repr

/-- `CommandId`: immutable command descriptor.  The optional validator returns
whether validation passed together with the events (errors) it wrote. -/
structure CommandId where
  name : String
  opt : OptMask
  arity : Int
  first_key_pos : Nat
  last_key_pos : Int
  key_arg_step : Nat
  validator : Option (List String → Bool × List Event) := none

/-- `ConnectionState::script_info`. -/
structure ScriptInfo where
  keys : List String
  is_write : Bool

/-- A queued command inside `exec_body` (`StoredCmd`). -/
structure StoredCmd where
  descr : CommandId
  cmd : List String

/-- Per-connection state (`ConnectionState`). -/
structure ConnState where
  db_index : Nat
  req_auth : Bool
  authenticated : Bool
  exec_state : ExecState
  exec_body : List StoredCmd
  script_info : Option ScriptInfo
  memcache_flag : Nat

/-- `ConnectionContext`: connection state plus the non-owning transaction
pointer (modelled as the name of the command the transaction was built for). -/
structure Ctx where
  conn : ConnState
  transaction : Option String

/-- The deferred `absl::Cleanup multi_error` hook armed at the top of
`DispatchCommand` (main_service.cc:344-348). -/
def multiError (c : Ctx) : Ctx :=
  if c.conn.exec_state ≠ ExecState.EXEC_INACTIVE then
    { c with conn := { c.conn with exec_state := ExecState.EXEC_ERROR } }
  else c

/-- `IsSHA` (main_service.cc:234-240): every character is a hex digit. -/
def IsSHA (s : String) : Bool :=
  s.toList.all fun c => c.isDigit || ('a' ≤ c && c ≤ 'f') || ('A' ≤ c && c ≤ 'F')

/-- `IsTransactional` (main_service.cc:242-252). -/
def IsTransactional (cid : CommandId) : Bool :=
  if cid.first_key_pos > 0 || cid.opt.global_trans then true
  else if cid.name = "EVAL" || cid.name = "EVALSHA" then true
  else false

/-- `absl::SimpleAtoi<int32_t>`: optional sign, decimal digits, int32 range. -/
def digitsToNat (cs : List Char) : Option Nat :=
  if cs.isEmpty then none
  else cs.foldl (fun acc c =>
    acc.bind fun n => if c.isDigit then some (n * 10 + (c.toNat - 48)) else none) (some 0)

/-- `absl::SimpleAtoi` specialised to `int32_t` as used by `EvalValidator`. -/
def simpleAtoi (s : String) : Option Int :=
  match s.toList with
  | '-' :: rest => (digitsToNat rest).bind fun n =>
      if (n : Int) ≤ 2 ^ 31 then some (-(n : Int)) else none
  | '+' :: rest => (digitsToNat rest).bind fun n =>
      if (n : Int) ≤ 2 ^ 31 - 1 then some (n : Int) else none
  | cs => (digitsToNat cs).bind fun n =>
      if (n : Int) ≤ 2 ^ 31 - 1 then some (n : Int) else none

/-- Modelled from the spec: `kInvalidIntErr` lives in server/error.h, which is
not part of this file; the spec gives the text `value is not an integer or out
of range`. -/
def kInvalidIntErr : String := "value is not an integer or out of range"

/-- Modelled from the spec: `kScriptNotFound` (server/error.h) is the NOSCRIPT
error replied when a script is unknown. -/
def kScriptNotFound : String := "-NOSCRIPT No matching script. Please use EVAL."

/-- Modelled from the spec: `WrongNumArgsError` (server/error.h) is the
canonical wrong-number-of-arguments error for a command name. -/
def WrongNumArgsError (cmd : String) : String :=
  "wrong number of arguments for " ++ squote ++ cmd ++ squote ++ " command"

/-- `EvalValidator` (main_service.cc:254-269). -/
def evalValidator (argv : List String) : Bool × List Event :=
  match simpleAtoi (argv.getD 2 "") with
  | none => (false, [.SendError kInvalidIntErr])
  | some n =>
    if n < 0 then (false, [.SendError kInvalidIntErr])
    else if n.toNat > argv.length - 3 then
      (false, [.SendError ("Number of keys can" ++ squote ++ "t be greater than number of args")])
    else (true, [])

/-- The auth gate condition of main_service.cc:362-367: REQ_AUTH set,
AUTHENTICATED clear, and the command is not AUTH. -/
def authBlocked (c : ConnState) (cid : CommandId) : Prop :=
  c.req_auth = true ∧ c.authenticated = false ∧ cid.name ≠ "AUTH"

instance (c : ConnState) (cid : CommandId) : Decidable (authBlocked c cid) := by
  unfold authBlocked; infer_instance

/-- `is_write_cmd` (main_service.cc:375-376). -/
def isWriteCmd (c : ConnState) (cid : CommandId) : Prop :=
  cid.opt.write = true ∨ c.script_info.map ScriptInfo.is_write = some true

instance (c : ConnState) (cid : CommandId) : Decidable (isWriteCmd c cid) := by
  unfold isWriteCmd; infer_instance

/-- The arity test of main_service.cc:384-385. -/
def arityFails (cid : CommandId) (n : Nat) : Prop :=
  (cid.arity > 0 ∧ n ≠ cid.arity.toNat) ∨ (cid.arity < 0 ∧ n < (-cid.arity).toNat)

instance (cid : CommandId) (n : Nat) : Decidable (arityFails cid n) := by
  unfold arityFails; infer_instance

/-- The validation prefix of `Service::DispatchCommand` (main_service.cc:
337-408): every check performed before the `multi_error` hook is cancelled.
`argv` already has its first element uppercased.  Returns the events written
on failure, or the command descriptor when validation passes. -/
def validateCommand (registry : String → Option CommandId) (gstate : GlobalState)
    (is_master : Bool) (argv : List String) (ctx : Ctx) :
    Except (List Event) CommandId :=
  let cmd_str := argv.headD ""
  let is_trans_cmd : Prop := cmd_str = "EXEC" ∨ cmd_str = "MULTI"
  match registry cmd_str with
  | none => .error [.SendError ("unknown command `" ++ cmd_str ++ "`")]
  | some cid =>
    if gstate = .LOADING ∨ gstate = .SHUTTING_DOWN then
      .error [.SendError ("Can not execute during " ++ gstate.name)]
    else if authBlocked ctx.conn cid then
      .error [.SendError "-NOAUTH Authentication required."]
    else if ctx.conn.script_info.isSome = true ∧ cid.opt.noscript = true then
      .error [.SendError "This Redis command is not allowed from script"]
    else if is_master = false ∧ isWriteCmd ctx.conn cid then
      .error [.SendError ("-READONLY You can" ++ squote ++ "t write against a read only replica.")]
    else if arityFails cid argv.length then
      .error [.SendError (WrongNumArgsError cmd_str)]
    else if cid.key_arg_step = 2 ∧ argv.length % 2 = 0 then
      .error [.SendError (WrongNumArgsError cmd_str)]
    else
      let vres := match cid.validator with
        | some v => v argv
        | none => (true, [])
      if vres.1 = false then .error vres.2
      else
        let under_multi : Prop :=
          ctx.conn.exec_state ≠ ExecState.EXEC_INACTIVE ∧ ¬is_trans_cmd
        if under_multi ∧ cid.opt.admin = true then
          .error [.SendError "Can not run admin commands under transactions"]
        else if under_multi ∧ cid.name = "SELECT" then
          .error [.SendError "Can not call SELECT within a transaction"]
        else .ok cid

/-- Modelled from the spec: `DetermineKeys` lives outside this file; it derives
the `(start, end)` key range of a command from its positional key metadata
(`last_key_pos < 0` means "to the end of argv"). -/
def determineKeys (cid : CommandId) (argv : List String) : Nat × Nat :=
  if cid.first_key_pos = 0 then (0, 0)
  else (cid.first_key_pos,
        if cid.last_key_pos < 0 then argv.length else cid.last_key_pos.toNat + 1)

/-- The undeclared-key scan of main_service.cc:431-437. -/
def scriptKeysOk (cid : CommandId) (argv : List String) (keys : List String) : Bool :=
  let ki := determineKeys cid argv
  (List.range' ki.1 (ki.2 - ki.1)).all fun i => keys.contains (argv.getD i "")

/-- `Service::DispatchCommand` (main_service.cc:329-468).  `handler` abstracts
the per-command handler table (`cid->Invoke`): it receives the command name and
argv and returns the updated context and the events the handler wrote. -/
def dispatchCommand (registry : String → Option CommandId) (gstate : GlobalState)
    (is_master : Bool) (handler : String → List String → Ctx → Ctx × List Event)
    (argv0 : List String) (ctx : Ctx) : Ctx × List Event :=
  match argv0 with
  | [] => (ctx, [])
  | a0 :: rest =>
    let argv := toUpperStr a0 :: rest
    let cmd_str := toUpperStr a0
    let is_trans_cmd : Prop := cmd_str = "EXEC" ∨ cmd_str = "MULTI"
    match validateCommand registry gstate is_master argv ctx with
    | .error evs => (multiError ctx, evs)
    | .ok cid =>
      -- multi_error hook cancelled here (main_service.cc:410)
      if ctx.conn.exec_state ≠ ExecState.EXEC_INACTIVE ∧ ¬is_trans_cmd then
        ({ ctx with conn := { ctx.conn with
            exec_body := ctx.conn.exec_body ++ [⟨cid, argv⟩] } },
         [.SendSimpleString "QUEUED"])
      else
        match ctx.conn.script_info with
        | some si =>
          if scriptKeysOk cid argv si.keys then
            let (ctx2, hevs) := handler cid.name argv ctx
            (ctx2,
             [.TxSetExecCmd cid.name, .TxInitByArgs ctx.conn.db_index argv,
              .Invoke cid.name argv] ++ hevs)
          else (ctx, [.SendError "script tried accessing undeclared key"])
        | none =>
          if IsTransactional cid then
            let ctx1 := { ctx with transaction := some cid.name }
            let (ctx2, hevs) := handler cid.name argv ctx1
            ({ ctx2 with transaction := none },
             [.TxInitByArgs ctx.conn.db_index argv, .Invoke cid.name argv] ++ hevs)
          else
            let ctx1 := { ctx with transaction := none }
            let (ctx2, hevs) := handler cid.name argv ctx1
            ({ ctx2 with transaction := none }, [.Invoke cid.name argv] ++ hevs)

/-- `Service::Multi` (main_service.cc:603-610). -/
def multiCommand (ctx : Ctx) : Ctx × List Event :=
  if ctx.conn.exec_state ≠ ExecState.EXEC_INACTIVE then
    (ctx, [.SendError "MULTI calls can not be nested"])
  else
    ({ ctx with conn := { ctx.conn with exec_state := ExecState.EXEC_COLLECT } },
     [.SendOk])

/-- Whether the reply builder has recorded an error (`GetError`), judged from
the events emitted so far. -/
def eventsHaveError (evs : List Event) : Bool :=
  evs.any fun e => match e with | .SendError _ => true | _ => false

/-- The queued-command loop of `Service::Exec` (main_service.cc:772-785):
each stored command is re-materialised, installed on the transaction and
invoked; the loop stops early once the reply builder reports an error. -/
def runExecBody (runStored : StoredCmd → Ctx → Ctx × List Event) (db : Nat) :
    List StoredCmd → Ctx → Ctx × List Event
  | [], ctx => (ctx, [])
  | scmd :: rest, ctx =>
    let (ctx1, evs1) := runStored scmd ctx
    let pre := [Event.TxSetExecCmd scmd.descr.name,
                Event.TxInitByArgs db scmd.cmd,
                Event.Invoke scmd.descr.name scmd.cmd]
    if eventsHaveError evs1 then (ctx1, pre ++ evs1)
    else
      let (ctx2, evs2) := runExecBody runStored db rest ctx1
      (ctx2, pre ++ evs1 ++ evs2)

/-- `Service::Exec` (main_service.cc:755-794).  `runStored` abstracts the
effect of invoking a queued command's handler. -/
def execCommand (runStored : StoredCmd → Ctx → Ctx × List Event) (ctx : Ctx) :
    Ctx × List Event :=
  if ctx.conn.exec_state = ExecState.EXEC_INACTIVE then
    (ctx, [.SendError "EXEC without MULTI"])
  else if ctx.conn.exec_state = ExecState.EXEC_ERROR then
    ({ ctx with conn := { ctx.conn with
        exec_state := ExecState.EXEC_INACTIVE, exec_body := [] } },
     [.SendError "-EXECABORT Transaction discarded because of previous errors"])
  else
    let body := ctx.conn.exec_body
    let hd := Event.StartArrayEv body.length
    let (ctx1, evs) :=
      if body.isEmpty then (ctx, [])
      else
        let (c, e) := runExecBody runStored ctx.conn.db_index body ctx
        (c, e ++ [Event.TxUnlockMulti])
    ({ ctx1 with conn := { ctx1.conn with
        exec_state := ExecState.EXEC_INACTIVE, exec_body := [] } },
     hd :: evs)

/-- The registry fragment built by `Service::RegisterCommands`
(main_service.cc:815-824): QUIT. -/
def quitCid : CommandId :=
  { name := "QUIT", opt := { readonly := true, fast := true },
    arity := 1, first_key_pos := 0, last_key_pos := 0, key_arg_step := 0 }

/-- MULTI as registered (main_service.cc:821). -/
def multiCid : CommandId :=
  { name := "MULTI", opt := { noscript := true, fast := true, loading := true },
    arity := 1, first_key_pos := 0, last_key_pos := 0, key_arg_step := 0 }

/-- EVAL as registered (main_service.cc:822). -/
def evalCid : CommandId :=
  { name := "EVAL", opt := { noscript := true },
    arity := -3, first_key_pos := 0, last_key_pos := 0, key_arg_step := 0,
    validator := some evalValidator }

/-- EVALSHA as registered (main_service.cc:823). -/
def evalShaCid : CommandId :=
  { name := "EVALSHA", opt := { noscript := true },
    arity := -3, first_key_pos := 0, last_key_pos := 0, key_arg_step := 0,
    validator := some evalValidator }

/-- EXEC as registered (main_service.cc:818, 824): `kExecMask` is
LOADING | NOSCRIPT | GLOBAL_TRANS. -/
def execCid : CommandId :=
  { name := "EXEC", opt := { loading := true, noscript := true, global_trans := true },
    arity := 1, first_key_pos := 0, last_key_pos := 0, key_arg_step := 0 }

/-- Lookup in the registry fragment registered in this file. -/
def registryFind : String → Option CommandId
  | "QUIT" => some quitCid
  | "MULTI" => some multiCid
  | "EVAL" => some evalCid
  | "EVALSHA" => some evalShaCid
  | "EXEC" => some execCid
  | _ => none

/-- Outcome of `Interpreter::RunFunction`. -/
inductive RunResult where
  | RUN_OK
  | RUN_ERR
  deriving DecidableEq, Repr

/-- `Service::EvalInternal` (main_service.cc:686-753).  The interpreter and
the script manager are abstracted: `cache` is `ScriptMgr::Find`, `known` the
set of SHAs the interpreter already holds (`Interpreter::Exists`), `runResult`
and `runError` the outcome of `RunFunction`, and `resultSafe` the value of
`IsResultSafe`. -/
def evalInternal (cache : String → Option String) (known : List String)
    (runResult : RunResult) (runError : String) (resultSafe : Bool)
    (sha : String) (keys sargs : List String) (ctx : Ctx) : Ctx × List Event :=
  if sha.length ≠ 40 ∨ IsSHA sha = false then
    (ctx, [.SendError kScriptNotFound])
  else
    let addEvs : Option (List Event) :=
      if known.contains sha then some []
      else
        match cache sha with
        | none => none
        | some body => some [.AddFunction body]
    match addEvs with
    | none => (ctx, [.SendError kScriptNotFound])
    | some evsA =>
      -- script_info is created, the run happens, script_info is reset.
      let evsSched := if keys.isEmpty then [] else [Event.TxSchedule]
      let evsSetup := [Event.SetGlobalArray "KEYS" keys,
                       Event.SetGlobalArray "ARGV" sargs]
      let ctx2 := { ctx with conn := { ctx.conn with script_info := none } }
      let evsUnlock := if keys.isEmpty then [] else [Event.TxUnlockMulti]
      let evsTail :=
        if runResult = RunResult.RUN_ERR then
          [Event.SendError ("Error running script (call to " ++ sha ++ "): " ++ runError)]
        else if resultSafe then [Event.SerializeResult, Event.ResetStack]
        else [Event.SendError "reached lua stack limit", Event.ResetStack]
      (ctx2,
       evsA ++ evsSched ++ evsSetup ++ [Event.RunFunction sha] ++ evsUnlock ++ evsTail)

/-- `Service::EvalSha` (main_service.cc:654-684).  `argv[1]` is lowercased in
place; when the interpreter does not know the hash, the script cache is
consulted only for 40-character hashes, and a found body is fed through
`AddFunction` (extending the interpreter's known set) before `EvalInternal`. -/
def evalSha (cache : String → Option String) (known : List String)
    (runResult : RunResult) (runError : String) (resultSafe : Bool)
    (argv : List String) (ctx : Ctx) : Ctx × List Event :=
  let numKeys := ((simpleAtoi (argv.getD 2 "")).getD 0).toNat
  let sha := toLowerStr (argv.getD 1 "")
  let keys := (argv.drop 3).take numKeys
  let sargs := (argv.drop 3).drop numKeys
  if known.contains sha then
    evalInternal cache known runResult runError resultSafe sha keys sargs ctx
  else
    let body := if sha.length = 40 then cache sha else none
    match body with
    | none => (ctx, [.SendError kScriptNotFound])
    | some b =>
      let (ctx2, evs) :=
        evalInternal cache (sha :: known) runResult runError resultSafe sha keys sargs ctx
      (ctx2, Event.AddFunction b :: evs)

/-- `MemcacheParser::CmdType` values handled by `DispatchMC`. -/
inductive MCType where
  | SET
  | ADD
  | REPLACE
  | DELETE
  | INCR
  | DECR
  | APPEND
  | PREPEND
  | GET
  | QUIT
  | STATS
  | VERSION
  | INVALID
  deriving DecidableEq, Repr

/-- A parsed Memcached command (`MemcacheParser::Command`). -/
structure MCCmd where
  type : MCType
  key : String
  keys_ext : List String
  delta : Nat
  expire_ts : Nat
  flags : Nat

/-- Modelled from the spec: `MemcacheParser::IsStoreCmd` is outside this file;
the spec's translation table appends the value slot exactly for the storage
commands SET, ADD, REPLACE, APPEND and PREPEND. -/
def mcIsStoreCmd : MCType → Bool
  | .SET | .ADD | .REPLACE | .APPEND | .PREPEND => true
  | _ => false

/-- Modelled from the spec: the `cmd.type < MemcacheParser::QUIT` test selects
the retrieval commands, whose extra keys are appended (`MGET key [key…]`);
DELETE/INCR/DECR fall into the other branch so that their `store_opt`
argument (the delta) is appended, matching the spec's table. -/
def mcIsReadCmd : MCType → Bool
  | .GET => true
  | _ => false

/-- The `cmd_name` chosen by the switch in `DispatchMC`
(main_service.cc:480-524); `none` for the out-of-band cases. -/
def mcCmdName : MCType → Option String
  | .SET => some "SET"
  | .ADD => some "SET"
  | .REPLACE => some "SET"
  | .DELETE => some "DEL"
  | .INCR => some "INCRBY"
  | .DECR => some "DECRBY"
  | .APPEND => some "APPEND"
  | .PREPEND => some "PREPEND"
  | .GET => some "MGET"
  | .QUIT => some "QUIT"
  | _ => none

/-- The `store_opt` buffer filled by the same switch. -/
def mcStoreOpt (cmd : MCCmd) : String :=
  match cmd.type with
  | .REPLACE => "XX"
  | .ADD => "NX"
  | .INCR => toString cmd.delta
  | .DECR => toString cmd.delta
  | _ => ""

/-- The synthetic Redis argv assembled by `DispatchMC`
(main_service.cc:526-556). -/
def mcSynthArgs (cmd : MCCmd) (value : String) : Option (List String) :=
  (mcCmdName cmd.type).map fun nm =>
    let base := [nm] ++ (if cmd.key = "" then [] else [cmd.key])
    if mcIsStoreCmd cmd.type then
      base ++ [value] ++ (if mcStoreOpt cmd = "" then [] else [mcStoreOpt cmd]) ++
        (if cmd.expire_ts ≠ 0 ∧ nm = "SET" then ["EX", toString cmd.expire_ts] else [])
    else if mcIsReadCmd cmd.type then base ++ cmd.keys_ext
    else base ++ (if mcStoreOpt cmd = "" then [] else [mcStoreOpt cmd])

/-- `Service::DispatchMC` (main_service.cc:470-562). -/
def dispatchMC (registry : String → Option CommandId) (gstate : GlobalState)
    (is_master : Bool) (handler : String → List String → Ctx → Ctx × List Event)
    (cmd : MCCmd) (value : String) (ctx : Ctx) : Ctx × List Event :=
  match cmd.type with
  | .STATS => (ctx, [.StatsMC cmd.key])
  | .VERSION => (ctx, [.SendVersionDirect])
  | .INVALID => (ctx, [.SendClientError "bad command line format"])
  | _ =>
    match mcSynthArgs cmd value with
    | none => (ctx, [.SendClientError "bad command line format"])
    | some args =>
      let ctx1 :=
        if mcIsStoreCmd cmd.type then
          { ctx with conn := { ctx.conn with memcache_flag := cmd.flags } }
        else ctx
      let (ctx2, evs) := dispatchCommand registry gstate is_master handler args ctx1
      ({ ctx2 with conn := { ctx2.conn with memcache_flag := 0 } },
       Event.McDispatch args :: evs)

/-- Events forwarded into the script's `ObjectExplorer`. -/
inductive ExplEv where
  | OnArrayStart (n : Nat)
  | OnArrayEnd
  | OnString (s : String)
  | OnStatus (s : String)
  | OnError (s : String)
  | OnInt (v : Int)
  | OnDouble
  | OnNil
  deriving DecidableEq, Repr

/-- The mutable state of `InterpreterReplier`: the stack of
`(saved_elem_count, target_len)` frames (`array_len_`, head = innermost frame,
i.e. the C++ vector's back) and the running element counter (`num_elems_`). -/
structure IRState where
  array_len : List (Nat × Nat)
  num_elems : Nat
  deriving DecidableEq, Repr

/-- The unwinding loop inside `InterpreterReplier::PostItem`
(main_service.cc:140-147): while the counter equals the top frame's target,
restore the saved count, emit an array-end event and pop. -/
def unwind : List (Nat × Nat) → Nat → List (Nat × Nat) × Nat × List ExplEv
  | [], n => ([], n, [])
  | (save, target) :: rest, n =>
    if n = target then
      let u := unwind rest save
      (u.1, u.2.1, ExplEv.OnArrayEnd :: u.2.2)
    else ((save, target) :: rest, n, [])

/-- `InterpreterReplier::PostItem` (main_service.cc:133-149). -/
def postItem (s : IRState) : IRState × List ExplEv :=
  match s.array_len with
  | [] => (⟨[], s.num_elems + 1⟩, [])
  | l =>
    let u := unwind l (s.num_elems + 1)
    (⟨u.1, u.2.1⟩, u.2.2)

/-- `InterpreterReplier::StartArray` (main_service.cc:222-232). -/
def startArray (len : Nat) (s : IRState) : IRState × List ExplEv :=
  if len = 0 then
    let p := postItem s
    (p.1, ExplEv.OnArrayStart 0 :: ExplEv.OnArrayEnd :: p.2)
  else
    (⟨(s.num_elems + 1, len) :: s.array_len, 0⟩, [ExplEv.OnArrayStart len])

/-- `InterpreterReplier::SendLong` (main_service.cc:207-210), a representative
leaf writer: emit the leaf, then run `PostItem`. -/
def sendLong (v : Int) (s : IRState) : IRState × List ExplEv :=
  let p := postItem s
  (p.1, ExplEv.OnInt v :: p.2)

/-- `InterpreterReplier::SendBulkString` (main_service.cc:217-220). -/
def sendBulkString (str : String) (s : IRState) : IRState × List ExplEv :=
  let p := postItem s
  (p.1, ExplEv.OnString str :: p.2)

/-- Whether an event is a reply written to the current reply builder (as
opposed to a transaction or interpreter interaction). -/
def isReplyEvent : Event → Bool
  | .SendError _ => true
  | .SendSimpleString _ => true
  | .SendOk => true
  | .SendNull => true
  | .SendClientError _ => true
  | .SendVersionDirect => true
  | .StartArrayEv _ => true
  | _ => false

/-- A fresh connection with no pending auth, outside MULTI and scripts. -/
def conn0 : ConnState :=
  { db_index := 0, req_auth := false, authenticated := false,
    exec_state := .EXEC_INACTIVE, exec_body := [], script_info := none,
    memcache_flag := 0 }

/-- A fresh context. -/
def ctx0 : Ctx := { conn := conn0, transaction := none }

/-- A context that has received MULTI (collect mode). -/
def ctxCollect : Ctx :=
  { conn := { conn0 with exec_state := .EXEC_COLLECT }, transaction := none }

/-- A context with `requirepass` set and not yet authenticated. -/
def ctxAuthPending : Ctx :=
  { conn := { conn0 with req_auth := true }, transaction := none }

/-- A context currently executing a script. -/
def ctxUnderScript : Ctx :=
  { conn := { conn0 with script_info := some ⟨[], false⟩ },
    transaction := some "EVAL" }

/-- A handler table with no observable effect, for concrete instantiations. -/
def noHandler : String → List String → Ctx → Ctx × List Event := fun _ _ c => (c, [])

/-- A stored-command runner with no observable effect. -/
def noRunStored : StoredCmd → Ctx → Ctx × List Event := fun _ c => (c, [])

/-- A 40-hex-digit SHA for concrete instantiations. -/
def shaA : String := "aaaaaaaaaaaaaaaaaaaaaaaaaaaaaaaaaaaaaaaa"

/-! ## Helper lemmas -/

/-- Any failure of the validation prefix makes `DispatchCommand` return the
validator's events after firing the `multi_error` cleanup hook. -/
theorem dispatchCommand_validation_error
    (registry : String → Option CommandId) (gstate : GlobalState) (is_master : Bool)
    (handler : String → List String → Ctx → Ctx × List Event)
    (a0 : String) (rest : List String) (ctx : Ctx) (evs : List Event)
    (hv : validateCommand registry gstate is_master (toUpperStr a0 :: rest) ctx = .error evs) :
    dispatchCommand registry gstate is_master handler (a0 :: rest) ctx =
      (multiError ctx, evs) := by
  simp only [dispatchCommand, hv]

/-- The cleanup hook turns any non-INACTIVE exec state into EXEC_ERROR and
leaves everything else unchanged. -/
theorem multiError_exec_state (c : Ctx)
    (h : c.conn.exec_state ≠ ExecState.EXEC_INACTIVE) :
    (multiError c).conn.exec_state = ExecState.EXEC_ERROR := by
  simp [multiError, h]

/-- The cleanup hook never touches the transaction pointer. -/
theorem multiError_transaction (c : Ctx) : (multiError c).transaction = c.transaction := by
  unfold multiError; split <;> rfl

/-! ## Theorems -/

/-- C6 (counterexample): the unknown-command error encloses the name in
backquotes, not in single quotes: dispatching `DOESNOTEXIST` writes
``unknown command `DOESNOTEXIST` `` and not `unknown command 'DOESNOTEXIST'`. -/
theorem unknown_command_quote_style_cex :
    (dispatchCommand registryFind .ACTIVE true noHandler ["DOESNOTEXIST"] ctx0).2 =
      [.SendError "unknown command `DOESNOTEXIST`"] ∧
    (dispatchCommand registryFind .ACTIVE true noHandler ["DOESNOTEXIST"] ctx0).2 ≠
      [.SendError ("unknown command " ++ squote ++ "DOESNOTEXIST" ++ squote)] := by
  decide

/-- C6 (amended): for every argv whose uppercased first element is absent from
the registry, DispatchCommand writes the error ``unknown command `<name>` ``
(name enclosed in backquotes) and returns without invoking any handler. -/
theorem unknown_command_error_backquoted
    (registry : String → Option CommandId) (gstate : GlobalState) (is_master : Bool)
    (handler : String → List String → Ctx → Ctx × List Event)
    (a0 : String) (rest : List String) (ctx : Ctx)
    (habsent : registry (toUpperStr a0) = none) :
    (dispatchCommand registry gstate is_master handler (a0 :: rest) ctx).2 =
      [.SendError ("unknown command `" ++ toUpperStr a0 ++ "`")] ∧
    ∀ n as, Event.Invoke n as ∉
      (dispatchCommand registry gstate is_master handler (a0 :: rest) ctx).2 := by
  have hv : validateCommand registry gstate is_master (toUpperStr a0 :: rest) ctx =
      .error [.SendError ("unknown command `" ++ toUpperStr a0 ++ "`")] := by
    unfold validateCommand
    simp [habsent]
  rw [dispatchCommand_validation_error registry gstate is_master handler a0 rest ctx _ hv]
  simp

/-- C6 (witness for the amended theorem), at the concrete input `lolwut`. -/
theorem unknown_command_error_backquoted_witness :
    registryFind (toUpperStr "lolwut") = none ∧
    ((dispatchCommand registryFind .ACTIVE true noHandler ["lolwut"] ctx0).2 =
      [.SendError ("unknown command `" ++ toUpperStr "lolwut" ++ "`")] ∧
     ∀ n as, Event.Invoke n as ∉
      (dispatchCommand registryFind .ACTIVE true noHandler ["lolwut"] ctx0).2) :=
  ⟨rfl,
   unknown_command_error_backquoted registryFind .ACTIVE true noHandler
     "lolwut" [] ctx0 rfl⟩

/-- C2 (counterexample): an EXEC with wrong arity dispatched while
exec_state is EXEC_COLLECT takes an error-return path that fires the deferred
hook, so exec_state becomes EXEC_ERROR even though the command is EXEC. -/
theorem exec_wrong_arity_poisons_cex :
    (dispatchCommand registryFind .ACTIVE true noHandler ["EXEC", "x"] ctxCollect).2 =
      [.SendError (WrongNumArgsError "EXEC")] ∧
    (dispatchCommand registryFind .ACTIVE true noHandler ["EXEC", "x"] ctxCollect).1.conn.exec_state =
      ExecState.EXEC_ERROR := by
  decide

/-- C2 (amended): every error-return path of DispatchCommand's validation —
for any command, MULTI and EXEC included — fires the deferred hook: the
result is exactly `multiError ctx` together with the validation's error
events, so exec_state becomes EXEC_ERROR whenever it was not EXEC_INACTIVE
(and is left EXEC_INACTIVE otherwise). -/
theorem validation_error_always_fires_hook
    (registry : String → Option CommandId) (gstate : GlobalState) (is_master : Bool)
    (handler : String → List String → Ctx → Ctx × List Event)
    (a0 : String) (rest : List String) (ctx : Ctx) (evs : List Event)
    (hv : validateCommand registry gstate is_master (toUpperStr a0 :: rest) ctx = .error evs) :
    dispatchCommand registry gstate is_master handler (a0 :: rest) ctx =
      (multiError ctx, evs) ∧
    (ctx.conn.exec_state ≠ ExecState.EXEC_INACTIVE →
      (dispatchCommand registry gstate is_master handler (a0 :: rest) ctx).1.conn.exec_state =
        ExecState.EXEC_ERROR) ∧
    (ctx.conn.exec_state = ExecState.EXEC_INACTIVE →
      (dispatchCommand registry gstate is_master handler (a0 :: rest) ctx).1.conn.exec_state =
        ExecState.EXEC_INACTIVE) := by
  have hd := dispatchCommand_validation_error registry gstate is_master handler a0 rest ctx evs hv
  refine ⟨hd, fun hne => ?_, fun heq => ?_⟩
  · rw [hd]; exact multiError_exec_state ctx hne
  · rw [hd]; simp [multiError, heq]

/-- C2 (witness for the amended theorem): MULTI with wrong arity, dispatched
while collecting, fires the hook and poisons exec_state. -/
theorem validation_error_always_fires_hook_witness :
    validateCommand registryFind .ACTIVE true (toUpperStr "MULTI" :: ["y"]) ctxCollect =
      .error [.SendError (WrongNumArgsError "MULTI")] ∧
    (dispatchCommand registryFind .ACTIVE true noHandler ["MULTI", "y"] ctxCollect =
      (multiError ctxCollect, [.SendError (WrongNumArgsError "MULTI")]) ∧
     (ctxCollect.conn.exec_state ≠ ExecState.EXEC_INACTIVE →
      (dispatchCommand registryFind .ACTIVE true noHandler ["MULTI", "y"] ctxCollect).1.conn.exec_state =
        ExecState.EXEC_ERROR) ∧
     (ctxCollect.conn.exec_state = ExecState.EXEC_INACTIVE →
      (dispatchCommand registryFind .ACTIVE true noHandler ["MULTI", "y"] ctxCollect).1.conn.exec_state =
        ExecState.EXEC_INACTIVE)) :=
  ⟨rfl,
   validation_error_always_fires_hook registryFind .ACTIVE true noHandler
     "MULTI" ["y"] ctxCollect [.SendError (WrongNumArgsError "MULTI")] rfl⟩

/-- C3 (counterexample): the arity check is not unconditional.  EVAL (arity
-3) dispatched with one argument on an unauthenticated connection yields the
NOAUTH error, not the canonical wrong-number-of-arguments error, because the
auth gate runs first. -/
theorem arity_error_not_unconditional_cex :
    registryFind "EVAL" = some evalCid ∧
    (arityFails evalCid (["EVAL"] : List String).length ∧
     (dispatchCommand registryFind .ACTIVE true noHandler ["EVAL"] ctxAuthPending).2 =
       [.SendError "-NOAUTH Authentication required."] ∧
     (dispatchCommand registryFind .ACTIVE true noHandler ["EVAL"] ctxAuthPending).2 ≠
       [.SendError (WrongNumArgsError "EVAL")]) :=
  ⟨rfl, by decide⟩

/-- C3 (amended): for every registered command and argv failing the arity
test, DispatchCommand writes the canonical wrong-number-of-arguments error
and invokes no handler, provided the checks that run earlier all pass: the
global state is neither LOADING nor SHUTTING_DOWN, the auth gate passes, the
command is not NOSCRIPT-blocked under a script, and it is not a write command
on a read-only replica. -/
theorem arity_error_after_earlier_gates
    (registry : String → Option CommandId) (gstate : GlobalState) (is_master : Bool)
    (handler : String → List String → Ctx → Ctx × List Event)
    (a0 : String) (rest : List String) (cid : CommandId) (ctx : Ctx)
    (hfind : registry (toUpperStr a0) = some cid)
    (hg : ¬(gstate = GlobalState.LOADING ∨ gstate = GlobalState.SHUTTING_DOWN))
    (hauth : ¬ authBlocked ctx.conn cid)
    (hns : ¬(ctx.conn.script_info.isSome = true ∧ cid.opt.noscript = true))
    (hro : ¬(is_master = false ∧ isWriteCmd ctx.conn cid))
    (har : arityFails cid (a0 :: rest : List String).length) :
    (dispatchCommand registry gstate is_master handler (a0 :: rest) ctx).2 =
      [.SendError (WrongNumArgsError (toUpperStr a0))] ∧
    ∀ n as, Event.Invoke n as ∉
      (dispatchCommand registry gstate is_master handler (a0 :: rest) ctx).2 := by
  have har2 : arityFails cid (toUpperStr a0 :: rest : List String).length := by
    simpa using har
  have hv : validateCommand registry gstate is_master (toUpperStr a0 :: rest) ctx =
      .error [.SendError (WrongNumArgsError (toUpperStr a0))] := by
    unfold validateCommand
    simp only [List.headD_cons, hfind]
    rw [if_neg hg, if_neg hauth, if_neg hns, if_neg hro, if_pos har2]
  rw [dispatchCommand_validation_error registry gstate is_master handler a0 rest ctx _ hv]
  simp

/-- C3 (witness for the amended theorem): EVAL with a single argument on a
clean connection yields the canonical wrong-args error. -/
theorem arity_error_after_earlier_gates_witness :
    registryFind (toUpperStr "EVAL") = some evalCid ∧
    ((dispatchCommand registryFind .ACTIVE true noHandler ["EVAL"] ctx0).2 =
      [.SendError (WrongNumArgsError (toUpperStr "EVAL"))] ∧
     ∀ n as, Event.Invoke n as ∉
      (dispatchCommand registryFind .ACTIVE true noHandler ["EVAL"] ctx0).2) :=
  ⟨rfl,
   arity_error_after_earlier_gates registryFind .ACTIVE true noHandler
     "EVAL" [] evalCid ctx0 rfl (by decide) (by decide) (by decide) (by decide)
     (by decide)⟩

/-- C1: if a command dispatched while exec_state is EXEC_COLLECT fails the
pre-enqueue validation (any error-return path: unknown command, bad arity,
failed validator, ADMIN or SELECT under multi, ...), exec_state becomes
EXEC_ERROR; the next EXEC on that connection replies
`-EXECABORT Transaction discarded because of previous errors`, resets
exec_state to EXEC_INACTIVE, clears exec_body, and invokes no queued
command handler. -/
theorem execabort_after_failed_enqueue
    (registry : String → Option CommandId) (gstate : GlobalState) (is_master : Bool)
    (handler : String → List String → Ctx → Ctx × List Event)
    (runStored : StoredCmd → Ctx → Ctx × List Event)
    (a0 : String) (rest : List String) (ctx : Ctx) (evs : List Event)
    (hcollect : ctx.conn.exec_state = ExecState.EXEC_COLLECT)
    (hfail : validateCommand registry gstate is_master (toUpperStr a0 :: rest) ctx = .error evs) :
    (dispatchCommand registry gstate is_master handler (a0 :: rest) ctx).1.conn.exec_state =
      ExecState.EXEC_ERROR ∧
    (execCommand runStored (dispatchCommand registry gstate is_master handler (a0 :: rest) ctx).1).2 =
      [.SendError "-EXECABORT Transaction discarded because of previous errors"] ∧
    (execCommand runStored (dispatchCommand registry gstate is_master handler (a0 :: rest) ctx).1).1.conn.exec_state =
      ExecState.EXEC_INACTIVE ∧
    (execCommand runStored (dispatchCommand registry gstate is_master handler (a0 :: rest) ctx).1).1.conn.exec_body =
      [] ∧
    ∀ n as, Event.Invoke n as ∉
      (execCommand runStored (dispatchCommand registry gstate is_master handler (a0 :: rest) ctx).1).2 := by
  have hd := dispatchCommand_validation_error registry gstate is_master handler a0 rest ctx evs hfail
  have hpoison : (dispatchCommand registry gstate is_master handler (a0 :: rest) ctx).1.conn.exec_state =
      ExecState.EXEC_ERROR := by
    rw [hd]
    exact multiError_exec_state ctx (by rw [hcollect]; exact fun h => by cases h)
  refine ⟨hpoison, ?_, ?_, ?_, ?_⟩ <;>
    simp [execCommand, hpoison]

/-- C1 (witness): a MULTI, a failing command (unknown name) queued under it,
then EXEC, all at concrete inputs. -/
theorem execabort_after_failed_enqueue_witness :
    ctxCollect.conn.exec_state = ExecState.EXEC_COLLECT ∧
    validateCommand registryFind .ACTIVE true (toUpperStr "BADCMD" :: []) ctxCollect =
      .error [.SendError "unknown command `BADCMD`"] ∧
    ((dispatchCommand registryFind .ACTIVE true noHandler ["BADCMD"] ctxCollect).1.conn.exec_state =
      ExecState.EXEC_ERROR ∧
     (execCommand noRunStored (dispatchCommand registryFind .ACTIVE true noHandler ["BADCMD"] ctxCollect).1).2 =
      [.SendError "-EXECABORT Transaction discarded because of previous errors"] ∧
     (execCommand noRunStored (dispatchCommand registryFind .ACTIVE true noHandler ["BADCMD"] ctxCollect).1).1.conn.exec_state =
      ExecState.EXEC_INACTIVE ∧
     (execCommand noRunStored (dispatchCommand registryFind .ACTIVE true noHandler ["BADCMD"] ctxCollect).1).1.conn.exec_body =
      [] ∧
     ∀ n as, Event.Invoke n as ∉
      (execCommand noRunStored (dispatchCommand registryFind .ACTIVE true noHandler ["BADCMD"] ctxCollect).1).2) :=
  ⟨rfl, rfl,
   execabort_after_failed_enqueue registryFind .ACTIVE true noHandler noRunStored
     "BADCMD" [] ctxCollect [.SendError "unknown command `BADCMD`"] rfl rfl⟩

/-- C9: for a connection not under a script, if the transaction pointer is
null when DispatchCommand is entered then it is null again when it returns,
on every path — error returns, the QUEUED path, non-transactional execution
and transactional execution — for every registry, global state, replica flag
and handler behaviour. -/
theorem transaction_pointer_restored
    (registry : String → Option CommandId) (gstate : GlobalState) (is_master : Bool)
    (handler : String → List String → Ctx → Ctx × List Event)
    (argv : List String) (ctx : Ctx)
    (hscript : ctx.conn.script_info = none)
    (htx : ctx.transaction = none) :
    (dispatchCommand registry gstate is_master handler argv ctx).1.transaction = none := by
  match argv with
  | [] => simpa [dispatchCommand] using htx
  | a0 :: rest =>
    rcases hval : validateCommand registry gstate is_master (toUpperStr a0 :: rest) ctx with evs | cid
    · rw [dispatchCommand_validation_error registry gstate is_master handler a0 rest ctx evs hval]
      show (multiError ctx).transaction = none
      rw [multiError_transaction]; exact htx
    · simp only [dispatchCommand, hval]
      split
      · exact htx
      · simp only [hscript]
        split <;> rfl

/-- C9 (witness): EVAL — a transactional command — dispatched on a clean
connection leaves the transaction pointer null. -/
theorem transaction_pointer_restored_witness :
    ctx0.conn.script_info = none ∧ ctx0.transaction = none ∧
    (dispatchCommand registryFind .ACTIVE true noHandler
      ["EVAL", "return 1", "0"] ctx0).1.transaction = none :=
  ⟨rfl, rfl,
   transaction_pointer_restored registryFind .ACTIVE true noHandler
     ["EVAL", "return 1", "0"] ctx0 rfl rfl⟩

/-- C10: EVAL and EVALSHA are registered with the NOSCRIPT option, so a
dispatch of either while script_info is present (a redis.call from a running
script, with the auth gate already satisfied and the server active) is
rejected with `This Redis command is not allowed from script` and never
reaches the handler — hence scripts cannot nest and EvalInternal's
assertion that script_info is absent on entry cannot be violated through
the dispatcher. -/
theorem eval_noscript_blocked_under_script
    (is_master : Bool) (handler : String → List String → Ctx → Ctx × List Event)
    (a0 : String) (rest : List String) (ctx : Ctx) (si : ScriptInfo)
    (hscript : ctx.conn.script_info = some si)
    (hname : toUpperStr a0 = "EVAL" ∨ toUpperStr a0 = "EVALSHA")
    (hauth : ¬(ctx.conn.req_auth = true ∧ ctx.conn.authenticated = false)) :
    (evalCid.opt.noscript = true ∧ evalShaCid.opt.noscript = true ∧
     registryFind "EVAL" = some evalCid ∧ registryFind "EVALSHA" = some evalShaCid) ∧
    (dispatchCommand registryFind .ACTIVE is_master handler (a0 :: rest) ctx).2 =
      [.SendError "This Redis command is not allowed from script"] ∧
    ∀ n as, Event.Invoke n as ∉
      (dispatchCommand registryFind .ACTIVE is_master handler (a0 :: rest) ctx).2 := by
  have hv : validateCommand registryFind .ACTIVE is_master (toUpperStr a0 :: rest) ctx =
      .error [.SendError "This Redis command is not allowed from script"] := by
    unfold validateCommand
    rcases hname with h | h <;>
    · simp only [List.headD_cons, h, registryFind]
      rw [if_neg (by simp : ¬(GlobalState.ACTIVE = GlobalState.LOADING ∨
            GlobalState.ACTIVE = GlobalState.SHUTTING_DOWN))]
      rw [if_neg (fun hb => hauth ⟨hb.1, hb.2.1⟩)]
      rw [if_pos ⟨by rw [hscript]; rfl, rfl⟩]
  rw [dispatchCommand_validation_error registryFind .ACTIVE is_master handler a0 rest ctx _ hv]
  exact ⟨⟨rfl, rfl, rfl, rfl⟩, rfl, by simp⟩

/-- C10 (witness): redis.call of EVAL from inside a script at a concrete
context. -/
theorem eval_noscript_blocked_under_script_witness :
    ctxUnderScript.conn.script_info = some ⟨[], false⟩ ∧
    (toUpperStr "eval" = "EVAL" ∨ toUpperStr "eval" = "EVALSHA") ∧
    ¬(ctxUnderScript.conn.req_auth = true ∧ ctxUnderScript.conn.authenticated = false) ∧
    ((dispatchCommand registryFind .ACTIVE true noHandler
        ["eval", "return 1", "0"] ctxUnderScript).2 =
      [.SendError "This Redis command is not allowed from script"] ∧
     ∀ n as, Event.Invoke n as ∉
      (dispatchCommand registryFind .ACTIVE true noHandler
        ["eval", "return 1", "0"] ctxUnderScript).2) :=
  ⟨rfl, Or.inl rfl, by decide,
   ((eval_noscript_blocked_under_script true noHandler "eval" ["return 1", "0"]
       ctxUnderScript ⟨[], false⟩ rfl (Or.inl rfl) (by decide)).2)⟩

/-- C8: in InterpreterReplier, `StartArray 0` emits OnArrayStart immediately
followed by OnArrayEnd (and then unwinds as a leaf); `StartArray len` with
`len > 0` pushes a frame saving the incremented parent element count with
target `len` and resets the counter; and after a leaf, when the top frame's
counter reaches its target, an OnArrayEnd is emitted, the frame is popped
and unwinding continues into the enclosing frames (`unwind`), while
otherwise only the counter advances. -/
theorem interpreter_replier_array_frames
    (s : IRState) (len save target n : Nat) (rest : List (Nat × Nat))
    (hlen : 0 < len) :
    ((startArray 0 s).2 = ExplEv.OnArrayStart 0 :: ExplEv.OnArrayEnd :: (postItem s).2 ∧
     (startArray 0 s).1 = (postItem s).1) ∧
    startArray len s =
      (⟨(s.num_elems + 1, len) :: s.array_len, 0⟩, [ExplEv.OnArrayStart len]) ∧
    (n + 1 = target →
      postItem ⟨(save, target) :: rest, n⟩ =
        (⟨(unwind rest save).1, (unwind rest save).2.1⟩,
         ExplEv.OnArrayEnd :: (unwind rest save).2.2)) ∧
    (n + 1 ≠ target →
      postItem ⟨(save, target) :: rest, n⟩ = (⟨(save, target) :: rest, n + 1⟩, [])) := by
  refine ⟨⟨?_, ?_⟩, ?_, fun h => ?_, fun h => ?_⟩
  · simp [startArray]
  · simp [startArray]
  · rw [startArray, if_neg (by omega : ¬len = 0)]
  · simp [postItem, unwind, h]
  · simp [postItem, unwind, h]

/-- C8 (witness): a two-element array whose second element closes it. -/
theorem interpreter_replier_array_frames_witness :
    0 < 2 ∧
    (((startArray 0 ⟨[], 0⟩).2 =
        ExplEv.OnArrayStart 0 :: ExplEv.OnArrayEnd :: (postItem ⟨[], 0⟩).2 ∧
      (startArray 0 ⟨[], 0⟩).1 = (postItem ⟨[], 0⟩).1) ∧
     startArray 2 ⟨[], 0⟩ = (⟨(0 + 1, 2) :: [], 0⟩, [ExplEv.OnArrayStart 2]) ∧
     (1 + 1 = 2 →
       postItem ⟨(1, 2) :: [], 1⟩ =
         (⟨(unwind [] 1).1, (unwind [] 1).2.1⟩,
          ExplEv.OnArrayEnd :: (unwind [] 1).2.2)) ∧
     (1 + 1 ≠ 2 →
       postItem ⟨(1, 2) :: [], 1⟩ = (⟨(1, 2) :: [], 1 + 1⟩, []))) :=
  ⟨by decide,
   interpreter_replier_array_frames ⟨[], 0⟩ 2 1 2 1 [] (by decide)⟩

/-- C5: for every EVALSHA whose `argv[1]`, after lowercasing, does not have
length 40 or contains a non-hex character, the only reply is the NOSCRIPT
error and the interpreter is never asked to run a function — whatever the
interpreter already knows and whatever the script cache holds. -/
theorem evalsha_bad_sha_yields_noscript
    (cache : String → Option String) (known : List String)
    (runResult : RunResult) (runError : String) (resultSafe : Bool)
    (argv : List String) (ctx : Ctx)
    (hbad : ¬((toLowerStr (argv.getD 1 "")).length = 40 ∧
              IsSHA (toLowerStr (argv.getD 1 "")) = true)) :
    ((evalSha cache known runResult runError resultSafe argv ctx).2.filter
        (fun e => isReplyEvent e)) = [.SendError kScriptNotFound] ∧
    ∀ s, Event.RunFunction s ∉
      (evalSha cache known runResult runError resultSafe argv ctx).2 := by
  have hcond : (toLowerStr (argv.getD 1 "")).length ≠ 40 ∨
      IsSHA (toLowerStr (argv.getD 1 "")) = false := by
    by_cases hl : (toLowerStr (argv.getD 1 "")).length = 40
    · right
      rcases Bool.eq_false_or_eq_true (IsSHA (toLowerStr (argv.getD 1 ""))) with h | h
      · exact absurd ⟨hl, h⟩ hbad
      · exact h
    · exact Or.inl hl
  have hint : ∀ kn ks sa, evalInternal cache kn runResult runError resultSafe
      (toLowerStr (argv.getD 1 "")) ks sa ctx = (ctx, [.SendError kScriptNotFound]) := by
    intro kn ks sa
    rw [evalInternal, if_pos hcond]
  simp only [evalSha]
  by_cases hk : known.contains (toLowerStr (argv.getD 1 "")) = true
  · rw [if_pos hk, hint]
    exact ⟨by simp [isReplyEvent], by simp⟩
  · rw [if_neg hk]
    by_cases hl : (toLowerStr (argv.getD 1 "")).length = 40
    · rw [if_pos hl]
      cases hcache : cache (toLowerStr (argv.getD 1 "")) with
      | none => exact ⟨by simp [isReplyEvent], by simp⟩
      | some b =>
        simp only [hint]
        exact ⟨by simp [isReplyEvent], by simp⟩
    · rw [if_neg hl]
      exact ⟨by simp [isReplyEvent], by simp⟩

/-- C5 (witness): EVALSHA of the three-character non-hex token `XYZ`. -/
theorem evalsha_bad_sha_yields_noscript_witness :
    ¬((toLowerStr (["EVALSHA", "XYZ", "0"].getD 1 "")).length = 40 ∧
      IsSHA (toLowerStr (["EVALSHA", "XYZ", "0"].getD 1 "")) = true) ∧
    (((evalSha (fun _ => none) [] .RUN_OK "" true ["EVALSHA", "XYZ", "0"] ctx0).2.filter
        (fun e => isReplyEvent e)) = [.SendError kScriptNotFound] ∧
     ∀ s, Event.RunFunction s ∉
      (evalSha (fun _ => none) [] .RUN_OK "" true ["EVALSHA", "XYZ", "0"] ctx0).2) :=
  ⟨by decide,
   evalsha_bad_sha_yields_noscript (fun _ => none) [] .RUN_OK "" true
     ["EVALSHA", "XYZ", "0"] ctx0 (by decide)⟩


/-- C4 (counterexample): `transaction.Schedule()` is not called "iff KEYS is
non-empty": on the early NOSCRIPT exit (here an invalid SHA) EvalInternal
returns before the lock lifecycle even though KEYS is non-empty, so neither
Schedule nor UnlockMulti happens. -/
theorem eval_schedule_iff_cex :
    ((["x"] : List String).isEmpty = false) ∧
    Event.TxSchedule ∉
      (evalInternal (fun _ => none) [] .RUN_OK "" true "zz" ["x"] [] ctx0).2 ∧
    Event.TxUnlockMulti ∉
      (evalInternal (fun _ => none) [] .RUN_OK "" true "zz" ["x"] [] ctx0).2 := by
  decide

/-- C4 (amended): on EvalInternal executions that reach the interpreter run
(the SHA is 40 hex digits and the function exists in the interpreter or the
script cache), Schedule is called iff the declared KEYS list is non-empty,
and when KEYS is non-empty UnlockMulti is emitted exactly once, after the
RunFunction call and before any error reply, on both the RUN_OK and the
RUN_ERR outcome. -/
theorem eval_schedule_unlock_on_run_path
    (cache : String → Option String) (known : List String)
    (runResult : RunResult) (runError : String) (resultSafe : Bool)
    (sha : String) (keys sargs : List String) (ctx : Ctx)
    (hlen : sha.length = 40) (hhex : IsSHA sha = true)
    (hknown : known.contains sha = true ∨ (cache sha).isSome = true) :
    (keys.isEmpty = true →
      Event.TxSchedule ∉ (evalInternal cache known runResult runError resultSafe sha keys sargs ctx).2 ∧
      Event.TxUnlockMulti ∉ (evalInternal cache known runResult runError resultSafe sha keys sargs ctx).2) ∧
    (keys.isEmpty = false → ∃ pre post,
      (evalInternal cache known runResult runError resultSafe sha keys sargs ctx).2 =
        pre ++ Event.TxUnlockMulti :: post ∧
      Event.TxSchedule ∈ pre ∧ Event.RunFunction sha ∈ pre ∧
      (∀ s, Event.SendError s ∉ pre) ∧
      Event.TxUnlockMulti ∉ pre ∧ Event.TxUnlockMulti ∉ post) := by
  have hcondneg : ¬(sha.length ≠ 40 ∨ IsSHA sha = false) := by
    simp [hlen, hhex]
  have hbody : ∀ evsA : List Event,
      (∀ s, Event.SendError s ∉ evsA) → Event.TxSchedule ∉ evsA → Event.TxUnlockMulti ∉ evsA →
      (keys.isEmpty = true →
        Event.TxSchedule ∉ (evsA ++ (if keys.isEmpty then [] else [Event.TxSchedule]) ++
          [Event.SetGlobalArray "KEYS" keys, Event.SetGlobalArray "ARGV" sargs] ++
          [Event.RunFunction sha] ++ (if keys.isEmpty then [] else [Event.TxUnlockMulti]) ++
          (if runResult = RunResult.RUN_ERR then
            [Event.SendError ("Error running script (call to " ++ sha ++ "): " ++ runError)]
          else if resultSafe then [Event.SerializeResult, Event.ResetStack]
          else [Event.SendError "reached lua stack limit", Event.ResetStack])) ∧
        Event.TxUnlockMulti ∉ (evsA ++ (if keys.isEmpty then [] else [Event.TxSchedule]) ++
          [Event.SetGlobalArray "KEYS" keys, Event.SetGlobalArray "ARGV" sargs] ++
          [Event.RunFunction sha] ++ (if keys.isEmpty then [] else [Event.TxUnlockMulti]) ++
          (if runResult = RunResult.RUN_ERR then
            [Event.SendError ("Error running script (call to " ++ sha ++ "): " ++ runError)]
          else if resultSafe then [Event.SerializeResult, Event.ResetStack]
          else [Event.SendError "reached lua stack limit", Event.ResetStack]))) ∧
      (keys.isEmpty = false → ∃ pre post,
        (evsA ++ (if keys.isEmpty then [] else [Event.TxSchedule]) ++
          [Event.SetGlobalArray "KEYS" keys, Event.SetGlobalArray "ARGV" sargs] ++
          [Event.RunFunction sha] ++ (if keys.isEmpty then [] else [Event.TxUnlockMulti]) ++
          (if runResult = RunResult.RUN_ERR then
            [Event.SendError ("Error running script (call to " ++ sha ++ "): " ++ runError)]
          else if resultSafe then [Event.SerializeResult, Event.ResetStack]
          else [Event.SendError "reached lua stack limit", Event.ResetStack])) =
          pre ++ Event.TxUnlockMulti :: post ∧
        Event.TxSchedule ∈ pre ∧ Event.RunFunction sha ∈ pre ∧
        (∀ s, Event.SendError s ∉ pre) ∧
        Event.TxUnlockMulti ∉ pre ∧ Event.TxUnlockMulti ∉ post) := by
    intro evsA hse hts htu
    constructor
    · intro hke
      constructor <;>
        · cases runResult <;> rcases Bool.eq_false_or_eq_true resultSafe with hs | hs <;>
            simp [hke, hs, List.mem_append, hts, htu]
    · intro hke
      refine ⟨evsA ++ [Event.TxSchedule, Event.SetGlobalArray "KEYS" keys,
        Event.SetGlobalArray "ARGV" sargs, Event.RunFunction sha],
        (if runResult = RunResult.RUN_ERR then
          [Event.SendError ("Error running script (call to " ++ sha ++ "): " ++ runError)]
        else if resultSafe then [Event.SerializeResult, Event.ResetStack]
        else [Event.SendError "reached lua stack limit", Event.ResetStack]), ?_, ?_, ?_, ?_, ?_, ?_⟩
      · simp [hke]
      · simp
      · simp
      · intro s
        simp only [List.mem_append]
        rintro (h | h)
        · exact hse s h
        · simp at h
      · simp only [List.mem_append]
        rintro (h | h)
        · exact htu h
        · simp at h
      · cases runResult <;> rcases Bool.eq_false_or_eq_true resultSafe with hs | hs <;>
          simp [hs]
  simp only [evalInternal]
  rw [if_neg hcondneg]
  by_cases hk : known.contains sha = true
  · rw [if_pos hk]
    exact hbody [] (by simp) (by simp) (by simp)
  · rw [if_neg hk]
    rcases ho : cache sha with _ | b
    · rw [ho] at hknown
      rcases hknown with h | h
      · exact absurd h hk
      · simp at h
    · exact hbody [Event.AddFunction b] (by simp) (by simp) (by simp)

/-- C4 (witness for the amended theorem): a known 40-hex SHA with one
declared key and a failing run. -/
theorem eval_schedule_unlock_on_run_path_witness :
    (shaA.length = 40 ∧ IsSHA shaA = true ∧
     ([shaA].contains shaA = true ∨ ((fun _ => none : String → Option String) shaA).isSome = true)) ∧
    ((["x"] : List String).isEmpty = true →
      Event.TxSchedule ∉ (evalInternal (fun _ => none) [shaA] .RUN_ERR "boom" true shaA ["x"] [] ctx0).2 ∧
      Event.TxUnlockMulti ∉ (evalInternal (fun _ => none) [shaA] .RUN_ERR "boom" true shaA ["x"] [] ctx0).2) ∧
    ((["x"] : List String).isEmpty = false → ∃ pre post,
      (evalInternal (fun _ => none) [shaA] .RUN_ERR "boom" true shaA ["x"] [] ctx0).2 =
        pre ++ Event.TxUnlockMulti :: post ∧
      Event.TxSchedule ∈ pre ∧ Event.RunFunction shaA ∈ pre ∧
      (∀ s, Event.SendError s ∉ pre) ∧
      Event.TxUnlockMulti ∉ pre ∧ Event.TxUnlockMulti ∉ post) :=
  ⟨⟨by decide, by decide, Or.inl (by decide)⟩,
   eval_schedule_unlock_on_run_path (fun _ => none) [shaA] .RUN_ERR "boom" true
     shaA ["x"] [] ctx0 (by decide) (by decide) (Or.inl (by decide))⟩


/-- C7: a Memcached REPLACE is rewritten to the Redis argv
`[SET, key, value, XX]`, with `[EX, ttl]` appended exactly when the command
carries a non-zero expire timestamp, and DispatchMC passes exactly that argv
to DispatchCommand (with `memcache_flag` stashed for the dispatch and cleared
afterwards). -/
theorem mc_replace_translation
    (registry : String → Option CommandId) (gstate : GlobalState) (is_master : Bool)
    (handler : String → List String → Ctx → Ctx × List Event)
    (cmd : MCCmd) (value : String) (ctx : Ctx)
    (htype : cmd.type = MCType.REPLACE) (hkey : ¬cmd.key = "") :
    mcSynthArgs cmd value =
      some (["SET", cmd.key, value, "XX"] ++
        (if cmd.expire_ts ≠ 0 then ["EX", toString cmd.expire_ts] else [])) ∧
    dispatchMC registry gstate is_master handler cmd value ctx =
      ({ (dispatchCommand registry gstate is_master handler
            (["SET", cmd.key, value, "XX"] ++
              (if cmd.expire_ts ≠ 0 then ["EX", toString cmd.expire_ts] else []))
            { ctx with conn := { ctx.conn with memcache_flag := cmd.flags } }).1 with
          conn := { (dispatchCommand registry gstate is_master handler
            (["SET", cmd.key, value, "XX"] ++
              (if cmd.expire_ts ≠ 0 then ["EX", toString cmd.expire_ts] else []))
            { ctx with conn := { ctx.conn with memcache_flag := cmd.flags } }).1.conn with
            memcache_flag := 0 } },
       Event.McDispatch
         (["SET", cmd.key, value, "XX"] ++
           (if cmd.expire_ts ≠ 0 then ["EX", toString cmd.expire_ts] else [])) ::
       (dispatchCommand registry gstate is_master handler
         (["SET", cmd.key, value, "XX"] ++
           (if cmd.expire_ts ≠ 0 then ["EX", toString cmd.expire_ts] else []))
         { ctx with conn := { ctx.conn with memcache_flag := cmd.flags } }).2) := by
  obtain ⟨t, key, ke, d, e, f⟩ := cmd
  simp only [MCCmd.key, MCCmd.expire_ts, MCCmd.flags, MCCmd.type] at htype hkey ⊢
  subst htype
  have hsynth : mcSynthArgs ⟨MCType.REPLACE, key, ke, d, e, f⟩ value =
      some (["SET", key, value, "XX"] ++ (if e ≠ 0 then ["EX", toString e] else [])) := by
    simp only [mcSynthArgs, mcCmdName, mcIsStoreCmd, mcStoreOpt, Option.map_some]
    rw [if_neg hkey]
    simp
  refine ⟨hsynth, ?_⟩
  simp only [dispatchMC, hsynth, mcIsStoreCmd, if_true]

/-- C7 (witness): REPLACE of key `k`, value `v`, expiry 5. -/
theorem mc_replace_translation_witness :
    (⟨MCType.REPLACE, "k", [], 0, 5, 7⟩ : MCCmd).type = MCType.REPLACE ∧
    ¬(⟨MCType.REPLACE, "k", [], 0, 5, 7⟩ : MCCmd).key = "" ∧
    mcSynthArgs (⟨MCType.REPLACE, "k", [], 0, 5, 7⟩ : MCCmd) "v" =
      some (["SET", "k", "v", "XX"] ++
        (if (⟨MCType.REPLACE, "k", [], 0, 5, 7⟩ : MCCmd).expire_ts ≠ 0 then
          ["EX", toString (⟨MCType.REPLACE, "k", [], 0, 5, 7⟩ : MCCmd).expire_ts]
        else [])) :=
  ⟨rfl, by decide,
   (mc_replace_translation registryFind .ACTIVE true noHandler
     (⟨MCType.REPLACE, "k", [], 0, 5, 7⟩ : MCCmd) "v" ctx0 rfl (by decide)).1⟩

end Dfly


